import Mathlib

/-
Verification development for the net-primary-production (NPP) pipeline.

The repository combines LAI, FAPAR, temperature, radiation and ecosystem
classification rasters with a per-class parameter table into one NPP raster
(src/npp.py), merges raster tiles (src/raster_ops.py), extracts temporal
aggregates from netCDF archives (src/netcdf_ops.py), clips and reprojects a
classification raster (src/estk_ops.py), loads configuration (src/config.py)
and validates outputs (src/validation.py).

Modelling conventions used throughout this file:
  - Machine floating-point values are modelled as rationals; the NaN no-data
    convention of the masked rasters is modelled by Option: none is NaN.
    Arithmetic on Option lifts pointwise and propagates none, exactly as
    NaN propagates through numpy elementwise arithmetic.
  - Division by a zero denominator yields none (no-data); the code can only
    reach that case through a degenerate parameter row with T_max = T_min.
  - A raster is a grid (affine transform given by origin and pixel size,
    plus width and height) together with a CRS string and a total map from
    flat pixel index to Option value; indices at or beyond width * height
    are irrelevant padding.
  - File input and output, logging, and calls into the geospatial libraries
    (rasterio, rioxarray, xarray) are not reimplemented: reading is modelled
    by a function from path to Option content (none is a missing file),
    raised exceptions by Except, written files by an explicit list of
    path-content pairs in the ok payload, and reprojection or resampling by
    an explicit function parameter, since its semantics live entirely in the
    library and the source only relies on the alignment of the result.
-/

/-- Spatial grid of a raster: affine transform (origin and signed pixel
size) together with the pixel dimensions. -/
structure Grid where
  x0 : ℚ
  dx : ℚ
  y0 : ℚ
  dy : ℚ
  width : ℕ
  height : ℕ
deriving DecidableEq

/-- A raster: grid, coordinate reference system, and per-pixel values in
row-major flat index order; none models a masked (NaN) pixel. -/
structure Raster where
  grid : Grid
  crs : String
  data : ℕ → Option ℚ

/-- Number of pixels of a raster. -/
def gsize (r : Raster) : ℕ := r.grid.width * r.grid.height

/-- Elementwise subtraction with NaN propagation. -/
def osub : Option ℚ → Option ℚ → Option ℚ
  | some a, some b => some (a - b)
  | _, _ => none

/-- Elementwise multiplication with NaN propagation. -/
def omul : Option ℚ → Option ℚ → Option ℚ
  | some a, some b => some (a * b)
  | _, _ => none

/-- Elementwise division with NaN propagation; a zero denominator is mapped
to no-data (see the modelling conventions above). -/
def odiv : Option ℚ → Option ℚ → Option ℚ
  | some a, some b => if b = 0 then none else some (a / b)
  | _, _ => none

/-- numpy clip with a lower bound of zero: NaN stays NaN. -/
def oclip0 (x : Option ℚ) : Option ℚ := x.map (fun v => max v 0)

/-- Values of a raster that are not masked out, in pixel order; this is
what numpy sees as the non-NaN entries of the array. -/
def rasterValues (r : Raster) : List ℚ :=
  (List.range (gsize r)).filterMap r.data

/-- Insert into an ascending list, keeping it ascending (duplicates kept). -/
def insertAsc (x : ℚ) : List ℚ → List ℚ
  | [] => [x]
  | y :: ys => if x ≤ y then x :: y :: ys else y :: insertAsc x ys

/-- Ascending insertion sort. -/
def sortAsc (l : List ℚ) : List ℚ := l.foldr insertAsc []

/-- Median as numpy computes it: middle element of the sorted values for an
odd count, mean of the two middle elements for an even count, none for an
empty list (np.nanmedian of an all-NaN array is NaN). -/
def qmedian (l : List ℚ) : Option ℚ :=
  let s := sortAsc l
  let n := s.length
  if n = 0 then none
  else if n % 2 = 1 then s[n / 2]?
  else match s[n / 2 - 1]?, s[n / 2]? with
    | some a, some b => some ((a + b) / 2)
    | _, _ => none

/-- Condition on npp.py line 60: float(np.nanmedian(temp.values)) > 100.
A NaN median (empty value list) compares false. -/
def medianExceeds100 (temp : Raster) : Bool :=
  match qmedian (rasterValues temp) with
  | some m => decide (100 < m)
  | none => false

/-- Kelvin-to-Celsius step of compute_npp (npp.py lines 59-63): when the
median of the non-NaN raw temperatures exceeds 100 the whole raster is
shifted by -273.15 (elementwise, NaN preserved), otherwise it is passed on
unchanged. -/
def convertedTemp (temp : Raster) : Raster :=
  if medianExceeds100 temp then
    { temp with data := fun j => (temp.data j).map (fun x => x - 273.15) }
  else temp

/-- Insert into a strictly ascending list of distinct values, discarding a
duplicate; folding this over a list models np.unique (sorted, distinct). -/
def insertUniq (x : ℚ) : List ℚ → List ℚ
  | [] => [x]
  | y :: ys => if x < y then x :: y :: ys else if x = y then y :: ys else y :: insertUniq x ys

/-- np.unique: the sorted distinct values of a list. -/
def uniqueSorted (l : List ℚ) : List ℚ := l.foldr insertUniq []

/-- astype(int) on a float value: truncation toward zero. -/
def truncInt (q : ℚ) : ℤ := q.num.tdiv q.den

/-- npp.py line 74: np.unique over the non-NaN classification values, cast
to int. -/
def estkClasses (r : Raster) : List ℤ :=
  (uniqueSorted (rasterValues r)).map truncInt

/-- Parameter row of the conversion table, one per ecosystem class. -/
structure ConvRow where
  eps_max : ℚ
  T_min : ℚ
  T_max : ℚ
deriving DecidableEq

/-- Conversion table: classification code to parameter row, as the DataFrame
indexed by ESTK class value. The data model gives one row per class, so
lookup takes the first matching row. -/
abbrev ConvTable := List (ℤ × ConvRow)

/-- conversion_df.loc lookup; none models a code absent from the index. -/
def lookupRow (tbl : ConvTable) (c : ℤ) : Option ConvRow :=
  (tbl.find? (fun p => decide (p.1 = c))).map Prod.snd

/-- Per-class body of the compute_npp loop (npp.py lines 81-108): build the
boolean class mask, skip the class when the mask selects nothing, otherwise
mask the inputs, form the clamped temperature limitation factor and the
gross productivity, and write the class NPP into the accumulator at masked
pixels only (npp_result.where applied to the negated mask). -/
def processClass (size : ℕ) (tempD faparD ssrdD estkD : ℕ → Option ℚ)
    (c : ℤ) (row : ConvRow) (acc : ℕ → Option ℚ) : ℕ → Option ℚ :=
  let mask : ℕ → Bool := fun j => decide (estkD j = some ((c : ℚ)))
  if (List.range size).countP (fun j => mask j) = 0 then acc
  else
    let temp_masked := fun j => if mask j then tempD j else none
    let fapar_masked := fun j => if mask j then faparD j else none
    let ssrd_masked := fun j => if mask j then ssrdD j else none
    let temp_factor := fun j =>
      odiv (omul (osub (temp_masked j) (some row.T_min))
                 (osub (some row.T_max) (temp_masked j)))
           (some ((row.T_max - row.T_min) ^ 2))
    let temp_factor_clipped := fun j => oclip0 (temp_factor j)
    let gpp := fun j => omul (omul (some row.eps_max) (fapar_masked j)) (ssrd_masked j)
    let npp_class := fun j => omul (gpp j) (temp_factor_clipped j)
    fun j => if !(mask j) then acc j else npp_class j

/-- One iteration of the class loop: look the class up in the table and run
the per-class body; a code filtered into valid_classes always has a row, so
the none branch is unreachable there. -/
def nppFoldStep (size : ℕ) (tempD faparD ssrdD estkD : ℕ → Option ℚ)
    (tbl : ConvTable) (acc : ℕ → Option ℚ) (c : ℤ) : ℕ → Option ℚ :=
  match lookupRow tbl c with
  | some row => processClass size tempD faparD ssrdD estkD c row acc
  | none => acc

/-- compute_npp (npp.py): the five rasters are given already loaded; rm is
the reproject_match operation of the raster library, taken as a parameter
because the source delegates resampling to it entirely. The temperature is
Kelvin-to-Celsius converted when needed, every input is aligned onto the LAI
grid, the output starts as an all-NaN raster shaped like LAI, and each
classification code present in both the raster and the table index writes
its class NPP at its own pixels. The returned raster is what the source
also writes to output_path. -/
def compute_npp (rm : Raster → Raster → Raster)
    (lai fapar temp ssrd estk : Raster) (conversion_df : ConvTable) : Raster :=
  let temp2 := rm (convertedTemp temp) lai
  let ssrd2 := rm ssrd lai
  let fapar2 := rm fapar lai
  let estk2 := rm estk lai
  let valid_classes := (estkClasses estk2).filter (fun c => (lookupRow conversion_df c).isSome)
  let finalData := valid_classes.foldl
    (nppFoldStep (gsize estk2) temp2.data fapar2.data ssrd2.data estk2.data conversion_df)
    (fun _ => none)
  { grid := lai.grid, crs := lai.crs, data := finalData }

/-- Stated from the specification text: the per-pixel NPP of a class is
eps_max times FAPAR times radiation times the temperature limitation factor
((T - T_min)(T_max - T)) / (T_max - T_min)^2 clamped at zero, in the shared
Option-valued (NaN-propagating) arithmetic. -/
def spec_npp_value (row : ConvRow) (t f s : Option ℚ) : Option ℚ :=
  omul (omul (omul (some row.eps_max) f) s)
       (oclip0 (odiv (omul (osub t (some row.T_min)) (osub (some row.T_max) t))
                     (some ((row.T_max - row.T_min) ^ 2))))

/-- Model of reproject_match for already-aligned inputs, used to instantiate
the rm parameter on concrete witnesses: the result carries the grid and CRS
of the target, and keeps the source data when the grids already agree (a
resampling onto the very same grid is the identity on values); data of a
genuinely resampled raster is not modelled. -/
def alignedReproject (r target : Raster) : Raster :=
  { grid := target.grid, crs := target.crs,
    data := if r.grid = target.grid then r.data else fun _ => none }

/-- Vector boundary used for clipping; geometry detail is irrelevant to the
properties proved here, only its identity is passed around. -/
structure Boundary where
  polys : List (List (ℚ × ℚ))

/-- A gridded netCDF variable: latitude labels (descending in the ERA5-like
archives the source reads), longitude labels (ascending), time labels as
(day, step-within-day) pairs in ascending order, and values. NaN does not
occur in the archives this models, so values are plain rationals. -/
structure NCDataset where
  lats : List ℚ
  lons : List ℚ
  times : List (ℕ × ℕ)
  val : ℕ × ℕ → ℚ → ℚ → ℚ

/-- A 2-D field labelled by latitude and longitude coordinates. -/
structure GeoField where
  lats : List ℚ
  lons : List ℚ
  val : ℚ → ℚ → ℚ

/-- Geographic bounding box. -/
structure BBox where
  lon_min : ℚ
  lon_max : ℚ
  lat_min : ℚ
  lat_max : ℚ

/-- Time-window selection ds.sel(time=slice(start, end)) with day-resolution
endpoints, inclusive on both sides as pandas date slicing is. -/
def selTimes (ds : NCDataset) (s e : ℕ) : List (ℕ × ℕ) :=
  ds.times.filter (fun t => decide (s ≤ t.1) && decide (t.1 ≤ e))

/-- Spatial selection da.sel(latitude=slice(lat_max, lat_min),
longitude=slice(lon_min, lon_max)): for strictly monotone coordinate labels
(descending latitude, ascending longitude) the label slice keeps exactly the
labels inside the closed interval, in their original order. -/
def clipBBox (f : GeoField) (b : BBox) : GeoField :=
  { lats := f.lats.filter (fun la => decide (b.lat_min ≤ la) && decide (la ≤ b.lat_max)),
    lons := f.lons.filter (fun lo => decide (b.lon_min ≤ lo) && decide (lo ≤ b.lon_max)),
    val := f.val }

/-- Mean of a list of rationals (empty list gives 0 in this model; the
source never aggregates an empty window). -/
def qmean (l : List ℚ) : ℚ := l.sum / l.length

/-- da.diff("time") at one spatial point: successive differences, each
labelled by the upper of its two timestamps (the xarray default), so a
difference crossing midnight belongs to the later day. -/
def diffUpper (ts : List (ℕ × ℕ)) (g : ℕ × ℕ → ℚ) : List ((ℕ × ℕ) × ℚ) :=
  List.zipWith (fun b a => (b, g b - g a)) ts.tail ts

/-- Day bins of resample(time="1D"): every day from the first to the last
labelled day, including days with no entries. -/
def dailyBins (entries : List ((ℕ × ℕ) × ℚ)) : List ℕ :=
  match entries.map (fun p => p.1.1) with
  | [] => []
  | d :: ds =>
    let lo := ds.foldl min d
    let hi := ds.foldl max d
    List.range' lo (hi - lo + 1)

/-- resample(time="1D").sum() at one spatial point: per-day sums of the
entries, one row per day bin (an empty bin sums to 0 as numpy does). -/
def resample1DSum (entries : List ((ℕ × ℕ) × ℚ)) : List (ℕ × ℚ) :=
  (dailyBins entries).map
    (fun d => (d, ((entries.filter (fun p => decide (p.1.1 = d))).map Prod.snd).sum))

/-- extract_monthly_mean (netcdf_ops.py lines 10-49): select the time
window, take the mean over time, then clip to the bounding box. The final
reprojection and raster write are library calls carrying the field through
unchanged and are not modelled. -/
def extract_monthly_mean (ds : NCDataset) (s e : ℕ) (bbox : BBox) : GeoField :=
  let ts := selTimes ds s e
  let da : GeoField :=
    { lats := ds.lats, lons := ds.lons,
      val := fun la lo => qmean (ts.map (fun t => ds.val t la lo)) }
  clipBBox da bbox

/-- extract_ssrd_may_process (netcdf_ops.py lines 52-78): select the time
window, diff along time, per-day sums, mean over days, then clip to the
bounding box; reprojection and write again not modelled. All temporal steps
act pointwise in space, so they are expressed per spatial point. -/
def extract_ssrd_may_process (ds : NCDataset) (s e : ℕ) (bbox : BBox) : GeoField :=
  let ts := selTimes ds s e
  let ssrd_mean : ℚ → ℚ → ℚ := fun la lo =>
    let ssrd_hourly := diffUpper ts (fun t => ds.val t la lo)
    let ssrd_daily := resample1DSum ssrd_hourly
    qmean (ssrd_daily.map Prod.snd)
  clipBBox { lats := ds.lats, lons := ds.lons, val := ssrd_mean } bbox

/-- Stated from the specification text: only the mean of the values of the
selected time window. -/
def spec_window_mean (ds : NCDataset) (s e : ℕ) (la lo : ℚ) : ℚ :=
  qmean ((selTimes ds s e).map (fun t => ds.val t la lo))

/-- Stated from the specification text: successive differences along time of
the selected window, then per-day sums of those differences, then the mean
over days, in that order. -/
def spec_radiation_aggregate (ds : NCDataset) (s e : ℕ) (la lo : ℚ) : ℚ :=
  let window := selTimes ds s e
  let diffs := List.zipWith
    (fun a b => (b, ds.val b la lo - ds.val a la lo)) window window.tail
  let daySums := resample1DSum diffs
  qmean (daySums.map Prod.snd)

/-- A coordinate-labelled raster as xarray sees a processed tile: the set of
cell coordinates it covers and a value map; a cell outside coords, or mapped
to none, is no-data. Coordinate labels rather than flat indices are used
here because combine_first aligns tiles of different extents by label. -/
structure CRaster where
  coords : List (ℚ × ℚ)
  val : ℚ × ℚ → Option ℚ

/-- Value a tile contributes at a cell: none outside its own coords. -/
def cellValue (r : CRaster) (c : ℚ × ℚ) : Option ℚ :=
  if c ∈ r.coords then r.val c else none

/-- A cell carries valid (non-NaN) data of a tile. -/
def isValidAt (r : CRaster) (c : ℚ × ℚ) : Bool :=
  (cellValue r c).isSome

/-- DataArray.combine_first: align on the union of the coordinates and keep
the values of the left operand wherever it has valid data, falling back to
the right operand elsewhere. -/
def combine_first (a b : CRaster) : CRaster :=
  { coords := a.coords ++ b.coords.filter (fun c => decide (c ∉ a.coords)),
    val := fun c =>
      match cellValue a c with
      | some v => some v
      | none => cellValue b c }

/-- merge_tiles (raster_ops.py lines 57-103): run load_clip_reproject on
every tile path (the per-tile load, clip-to-boundary, reproject and rescale
pipeline is the lcr parameter, since it is pure library composition), take
the first processed tile and fold combine_first over the rest, then write to
out_path when one is given. Indexing processed[0] on an empty tile list
raises IndexError, modelled as the error branch; the write never happens in
that case, so the writes list lives in the ok payload. -/
def merge_tiles (lcr : String → Boundary → String → ℚ → CRaster)
    (tile_paths : List String) (boundary : Boundary) (target_crs : String)
    (scale_factor : ℚ) (out_path : Option String) :
    Except String (CRaster × List (String × CRaster)) :=
  let processed := tile_paths.map (fun p => lcr p boundary target_crs scale_factor)
  match processed with
  | [] => Except.error "IndexError: list index out of range"
  | first :: rest =>
    let merged := rest.foldl combine_first first
    let writes := match out_path with
      | some o => [(o, merged)]
      | none => []
    Except.ok (merged, writes)

/-- First valid value among a list of tiles at a cell, in list order. -/
def firstValid (ps : List CRaster) (c : ℚ × ℚ) : Option ℚ :=
  match ps with
  | [] => none
  | p :: rest =>
    match cellValue p c with
    | some v => some v
    | none => firstValid rest c

/-- validate_raster_crs (validation.py lines 12-32): the whole body runs
inside try/except, so the caller always receives a Bool. The opened state is
src.crs.to_string() when the raster has a CRS, none otherwise; a failed open
is the error case and yields false after logging. -/
def validate_raster_crs (openResult : Except String (Option String))
    (expected_crs : String) : Bool :=
  match openResult with
  | Except.error _ => false
  | Except.ok raster_crs =>
    if raster_crs ≠ some expected_crs then false else true

/-- validate_estk_classes (validation.py lines 35-56): classes present are
the non-NaN values cast to int; the check succeeds when no expected class is
missing; any exception while opening or reading yields false. -/
def validate_estk_classes (openResult : Except String (List (Option ℚ)))
    (expected_classes : List ℤ) : Bool :=
  match openResult with
  | Except.error _ => false
  | Except.ok values =>
    let present_classes := (uniqueSorted (values.filterMap id)).map truncInt
    let missing_classes := expected_classes.filter (fun cls => decide (cls ∉ present_classes))
    if missing_classes ≠ [] then false else true

/-- np.nanmin: smallest non-NaN value, none when every value is NaN. -/
def nanMin (values : List (Option ℚ)) : Option ℚ :=
  match values.filterMap id with
  | [] => none
  | v :: vs => some (vs.foldl min v)

/-- np.nanmax: largest non-NaN value, none when every value is NaN. -/
def nanMax (values : List (Option ℚ)) : Option ℚ :=
  match values.filterMap id with
  | [] => none
  | v :: vs => some (vs.foldl max v)

/-- validate_data_range (validation.py lines 59-82): fail when a given lower
bound exceeds the minimum or a given upper bound is below the maximum; a NaN
extremum compares false, so an all-NaN raster passes; any exception yields
false. -/
def validate_data_range (openResult : Except String (List (Option ℚ)))
    (min_val max_val : Option ℚ) : Bool :=
  match openResult with
  | Except.error _ => false
  | Except.ok values =>
    let belowMin := match min_val, nanMin values with
      | some mv, some actual => decide (actual < mv)
      | _, _ => false
    let aboveMax := match max_val, nanMax values with
      | some mv, some actual => decide (mv < actual)
      | _, _ => false
    if belowMin then false
    else if aboveMax then false
    else true

/-- File system visible to the raster loaders: none is a missing file, at
which rasterio and rioxarray raise. -/
abbrev RasterFS := String → Option Raster

/-- rxr.open_rasterio on a path: the raster when the file exists, a raised
exception otherwise. -/
def open_rasterio (fs : RasterFS) (p : String) : Except String Raster :=
  match fs p with
  | some r => Except.ok r
  | none => Except.error ("No such file or directory: " ++ p)

/-- compute_npp at file level (npp.py lines 54-58 and 110-117): the five
inputs are opened in source order, any missing file raises before anything
is computed or written, and on success the computed raster is returned and
written to output_path (the single entry of the writes list). -/
def compute_npp_io (fs : RasterFS) (rm : Raster → Raster → Raster)
    (lai_path fapar_path temp_path ssrd_path estk_path : String)
    (conversion_df : ConvTable) (output_path : String) :
    Except String (Raster × List (String × Raster)) := do
  let lai ← open_rasterio fs lai_path
  let fapar ← open_rasterio fs fapar_path
  let temp ← open_rasterio fs temp_path
  let ssrd ← open_rasterio fs ssrd_path
  let estk ← open_rasterio fs estk_path
  let npp_result := compute_npp rm lai fapar temp ssrd estk conversion_df
  Except.ok (npp_result, [(output_path, npp_result)])

/-- clip_and_reproject_estk (estk_ops.py lines 14-69): an explicit existence
check raises FileNotFoundError before the raster is opened; otherwise the
raster is clipped to the boundary, written, reprojected and written again.
Clipping and reprojection are library calls passed in as parameters. The
ensure_dir calls that precede the check only create directories and write no
raster. -/
def clip_and_reproject_estk (clip : Raster → Boundary → Raster)
    (reproject : Raster → String → Raster) (fs : RasterFS)
    (estk_raster_path : String) (boundary_gdf : Boundary)
    (clipped_raster_path reprojected_raster_path : String)
    (target_crs : String) : Except String (List (String × Raster)) :=
  match fs estk_raster_path with
  | none => Except.error ("ESTK raster not found: " ++ estk_raster_path)
  | some src =>
    let clipped := clip src boundary_gdf
    let reprojected := reproject clipped target_crs
    Except.ok [(clipped_raster_path, clipped), (reprojected_raster_path, reprojected)]

/-- load_config (config.py lines 6-20): an explicit existence check raises
FileNotFoundError, otherwise the file content is parsed by yaml.safe_load,
abstracted as the parse parameter over raw content strings. -/
def load_config (parse : String → List (String × String))
    (cfs : String → Option String) (config_path : String) :
    Except String (List (String × String)) :=
  match cfs config_path with
  | none => Except.error ("Config file not found: " ++ config_path)
  | some content => Except.ok (parse content)

theorem mem_insertUniq (a x : ℚ) (l : List ℚ) : a ∈ insertUniq x l ↔ a = x ∨ a ∈ l := by
  induction l with
  | nil => simp [insertUniq]
  | cons y ys ih =>
    simp only [insertUniq]
    split_ifs with h1 h2
    · simp [List.mem_cons]
    · subst h2
      simp only [List.mem_cons]
      tauto
    · simp only [List.mem_cons, ih]
      tauto

theorem mem_uniqueSorted (a : ℚ) (l : List ℚ) (h : a ∈ l) : a ∈ uniqueSorted l := by
  induction l with
  | nil => cases h
  | cons y ys ih =>
    rcases List.mem_cons.mp h with h | h
    · exact (mem_insertUniq a y (uniqueSorted ys)).mpr (Or.inl h)
    · exact (mem_insertUniq a y (uniqueSorted ys)).mpr (Or.inr (ih h))

theorem truncInt_intCast (c : ℤ) : truncInt ((c : ℚ)) = c := by
  simp [truncInt, Rat.num_intCast, Rat.den_intCast]

theorem nppFoldStep_ne_pixel (size : ℕ) (tempD faparD ssrdD estkD : ℕ → Option ℚ)
    (tbl : ConvTable) (acc : ℕ → Option ℚ) (c : ℤ) (i : ℕ)
    (h : estkD i ≠ some ((c : ℚ))) :
    nppFoldStep size tempD faparD ssrdD estkD tbl acc c i = acc i := by
  unfold nppFoldStep
  cases hlk : lookupRow tbl c with
  | none => rfl
  | some row =>
    by_cases hcnt : (List.range size).countP (fun j => decide (estkD j = some ((c : ℚ)))) = 0
    · simp [processClass, hcnt]
    · simp [processClass, hcnt, h]

theorem foldl_npp_untouched (size : ℕ) (tempD faparD ssrdD estkD : ℕ → Option ℚ)
    (tbl : ConvTable) (L : List ℤ) (acc : ℕ → Option ℚ) (i : ℕ)
    (h : ∀ c ∈ L, estkD i ≠ some ((c : ℚ))) :
    (L.foldl (nppFoldStep size tempD faparD ssrdD estkD tbl) acc) i = acc i := by
  induction L generalizing acc with
  | nil => rfl
  | cons c L ih =>
    rw [List.foldl_cons, ih _ (fun d hd => h d (List.mem_cons_of_mem _ hd))]
    exact nppFoldStep_ne_pixel size tempD faparD ssrdD estkD tbl acc c i
      (h c (List.mem_cons_self c L))

theorem processClass_hit (size : ℕ) (tempD faparD ssrdD estkD : ℕ → Option ℚ)
    (c : ℤ) (row : ConvRow) (acc : ℕ → Option ℚ) (i : ℕ)
    (hi : i < size) (hpix : estkD i = some ((c : ℚ))) :
    processClass size tempD faparD ssrdD estkD c row acc i =
      spec_npp_value row (tempD i) (faparD i) (ssrdD i) := by
  have hmask : decide (estkD i = some ((c : ℚ))) = true := decide_eq_true hpix
  have hcnt : (List.range size).countP (fun j => decide (estkD j = some ((c : ℚ)))) ≠ 0 := by
    have hpos : 0 < (List.range size).countP (fun j => decide (estkD j = some ((c : ℚ)))) :=
      List.countP_pos_iff.mpr ⟨i, List.mem_range.mpr hi, hmask⟩
    omega
  simp [processClass, hcnt, hpix, spec_npp_value]

theorem foldl_npp_hit (size : ℕ) (tempD faparD ssrdD estkD : ℕ → Option ℚ)
    (tbl : ConvTable) (L : List ℤ) (acc : ℕ → Option ℚ) (c : ℤ) (row : ConvRow) (i : ℕ)
    (hi : i < size) (hpix : estkD i = some ((c : ℚ)))
    (hkey : lookupRow tbl c = some row) (hmem : c ∈ L) :
    (L.foldl (nppFoldStep size tempD faparD ssrdD estkD tbl) acc) i =
      spec_npp_value row (tempD i) (faparD i) (ssrdD i) := by
  induction L generalizing acc with
  | nil => cases hmem
  | cons d L ih =>
    rw [List.foldl_cons]
    by_cases hdc : d = c
    · subst hdc
      by_cases hmem2 : d ∈ L
      · exact ih _ hmem2
      · rw [foldl_npp_untouched]
        · unfold nppFoldStep
          rw [hkey]
          exact processClass_hit size tempD faparD ssrdD estkD d row acc i hi hpix
        · intro e he heq
          apply hmem2
          have hcast : ((d : ℤ) : ℚ) = ((e : ℤ) : ℚ) := by
            rw [hpix] at heq
            exact Option.some_injective _ heq
          rwa [show d = e from Int.cast_injective hcast]
    · rcases List.mem_cons.mp hmem with h | h
      · exact absurd h.symm hdc
      · exact ih _ h

/-- C1: for every classification code present both in the conversion table
and in the classification raster, the NPP value computed by compute_npp at
each pixel of that class equals eps_max times FAPAR times radiation times
the clamped temperature limitation factor, where the temperature, FAPAR and
radiation values are the (possibly Kelvin-to-Celsius converted) inputs
aligned onto the LAI grid at that pixel and eps_max, T_min, T_max are the
table row of that class. -/
theorem compute_npp_class_pixel (rm : Raster → Raster → Raster)
    (lai fapar temp ssrd estk : Raster) (tbl : ConvTable) (c : ℤ) (row : ConvRow) (i : ℕ)
    (hkey : lookupRow tbl c = some row)
    (hi : i < gsize (rm estk lai))
    (hpix : (rm estk lai).data i = some ((c : ℚ))) :
    (compute_npp rm lai fapar temp ssrd estk tbl).data i =
      spec_npp_value row ((rm (convertedTemp temp) lai).data i)
        ((rm fapar lai).data i) ((rm ssrd lai).data i) := by
  have hval : ((c : ℚ)) ∈ rasterValues (rm estk lai) :=
    List.mem_filterMap.mpr ⟨i, List.mem_range.mpr hi, hpix⟩
  have hmemclasses : c ∈ estkClasses (rm estk lai) := by
    have hu := mem_uniqueSorted _ _ hval
    exact List.mem_map.mpr ⟨(c : ℚ), hu, truncInt_intCast c⟩
  have hmem : c ∈ (estkClasses (rm estk lai)).filter (fun d => (lookupRow tbl d).isSome) :=
    List.mem_filter.mpr ⟨hmemclasses, by simp [hkey]⟩
  show ((estkClasses (rm estk lai)).filter (fun d => (lookupRow tbl d).isSome)).foldl
      (nppFoldStep (gsize (rm estk lai)) (rm (convertedTemp temp) lai).data
        (rm fapar lai).data (rm ssrd lai).data (rm estk lai).data tbl)
      (fun _ => none) i = _
  exact foldl_npp_hit _ _ _ _ _ tbl _ _ c row i hi hpix hkey hmem

def wGrid : Grid :=
  { x0 := 0, dx := 1, y0 := 0, dy := -1, width := 1, height := 1 }

def wLai : Raster := { grid := wGrid, crs := "EPSG:32631", data := fun _ => some 1 }

def wFapar : Raster := { grid := wGrid, crs := "EPSG:32631", data := fun _ => some (1 / 2) }

def wTemp : Raster := { grid := wGrid, crs := "EPSG:32631", data := fun _ => some 15 }

def wSsrd : Raster := { grid := wGrid, crs := "EPSG:32631", data := fun _ => some 200 }

def wEstk : Raster := { grid := wGrid, crs := "EPSG:32631", data := fun _ => some 10 }

def wRow : ConvRow := { eps_max := 6 / 5, T_min := 0, T_max := 30 }

def wTbl : ConvTable := [(10, wRow)]

/-- Witness for C1, on the worked example of the specification: class 10
with eps_max 1.2, T_min 0, T_max 30, pixel values T 15, FAPAR 0.5 and
radiation 200 produce NPP 30. -/
theorem compute_npp_class_pixel_witness :
    (compute_npp alignedReproject wLai wFapar wTemp wSsrd wEstk wTbl).data 0 =
      spec_npp_value wRow ((alignedReproject (convertedTemp wTemp) wLai).data 0)
        ((alignedReproject wFapar wLai).data 0) ((alignedReproject wSsrd wLai).data 0) ∧
    (compute_npp alignedReproject wLai wFapar wTemp wSsrd wEstk wTbl).data 0 = some 30 := by
  have h := compute_npp_class_pixel alignedReproject wLai wFapar wTemp wSsrd wEstk wTbl 10 wRow 0
    (by rfl) (by decide) (by simp [alignedReproject, wEstk, wLai, wGrid])
  refine ⟨h, ?_⟩
  rw [h]
  have ht : (alignedReproject (convertedTemp wTemp) wLai).data 0 = some 15 := by rfl
  have hf : (alignedReproject wFapar wLai).data 0 = some (1 / 2) := by rfl
  have hs : (alignedReproject wSsrd wLai).data 0 = some 200 := by rfl
  rw [ht, hf, hs]
  have hfac : ((15 : ℚ) - 0) * (30 - 15) / ((30 - 0) ^ 2) = 1 / 4 := by norm_num
  simp only [spec_npp_value, wRow, omul, osub, odiv, oclip0, Option.map]
  norm_num [hfac]

/-- C2: a pixel of the classification raster (as aligned onto the LAI grid)
whose class code, the value cast to int, is absent from the conversion table
index stays no-data in the output of compute_npp. -/
theorem compute_npp_unknown_class (rm : Raster → Raster → Raster)
    (lai fapar temp ssrd estk : Raster) (tbl : ConvTable) (i : ℕ) (v : ℚ)
    (hpix : (rm estk lai).data i = some v)
    (habsent : lookupRow tbl (truncInt v) = none) :
    (compute_npp rm lai fapar temp ssrd estk tbl).data i = none := by
  show ((estkClasses (rm estk lai)).filter (fun d => (lookupRow tbl d).isSome)).foldl
      (nppFoldStep (gsize (rm estk lai)) (rm (convertedTemp temp) lai).data
        (rm fapar lai).data (rm ssrd lai).data (rm estk lai).data tbl)
      (fun _ => none) i = none
  rw [foldl_npp_untouched]
  intro c hc heq
  obtain ⟨hcls, hsome⟩ := List.mem_filter.mp hc
  rw [hpix] at heq
  obtain rfl : v = ((c : ℚ)) := Option.some_injective _ heq
  rw [truncInt_intCast] at habsent
  rw [habsent] at hsome
  cases hsome

def wEstk99 : Raster := { grid := wGrid, crs := "EPSG:32631", data := fun _ => some 99 }

/-- Witness for C2: a pixel of class 99, absent from the one-row table for
class 10, is no-data in the output. -/
theorem compute_npp_unknown_class_witness :
    (compute_npp alignedReproject wLai wFapar wTemp wSsrd wEstk99 wTbl).data 0 = none :=
  compute_npp_unknown_class alignedReproject wLai wFapar wTemp wSsrd wEstk99 wTbl 0 99
    (by rfl) (by rfl)

/-- C3: within compute_npp the temperature actually passed on is
convertedTemp of the raw raster; when the median of the non-NaN raw values
exceeds 100 every value equals the raw value minus 273.15, when the median
exists but does not exceed 100 every value is unchanged, and an undefined
median (all-NaN raster) also leaves the raster unchanged. -/
theorem convertedTemp_median_rule (temp : Raster) (j : ℕ) :
    (∀ m : ℚ, qmedian (rasterValues temp) = some m → 100 < m →
      (convertedTemp temp).data j = (temp.data j).map (fun x => x - 273.15)) ∧
    (∀ m : ℚ, qmedian (rasterValues temp) = some m → ¬ 100 < m →
      (convertedTemp temp).data j = temp.data j) ∧
    (qmedian (rasterValues temp) = none → convertedTemp temp = temp) := by
  refine ⟨?_, ?_, ?_⟩
  · intro m hm h100
    simp [convertedTemp, medianExceeds100, hm, h100]
  · intro m hm h100
    simp [convertedTemp, medianExceeds100, hm, h100]
  · intro hm
    simp [convertedTemp, medianExceeds100, hm]

def wKelvin : Raster := { grid := wGrid, crs := "EPSG:32631", data := fun _ => some 300 }

/-- Witness for C3: a raster whose single value is 300 has median 300, above
100, so its values are shifted by -273.15; a raster with value 15 has median
15 and is unchanged. -/
theorem convertedTemp_median_rule_witness :
    (convertedTemp wKelvin).data 0 = (wKelvin.data 0).map (fun x => x - 273.15) ∧
    (convertedTemp wTemp).data 0 = wTemp.data 0 :=
  ⟨(convertedTemp_median_rule wKelvin 0).1 300 (by rfl) (by norm_num),
   (convertedTemp_median_rule wTemp 0).2.1 15 (by rfl) (by norm_num)⟩

/-- C4: compute_npp resamples the converted temperature, radiation, FAPAR
and classification rasters onto the LAI grid through reproject_match (any rm
whose output grid is the target grid), and the raster it returns carries the
LAI grid and the LAI CRS. -/
theorem compute_npp_grid_alignment (rm : Raster → Raster → Raster)
    (lai fapar temp ssrd estk : Raster) (tbl : ConvTable)
    (hrm : ∀ r t : Raster, (rm r t).grid = t.grid) :
    (rm (convertedTemp temp) lai).grid = lai.grid ∧
    (rm ssrd lai).grid = lai.grid ∧
    (rm fapar lai).grid = lai.grid ∧
    (rm estk lai).grid = lai.grid ∧
    (compute_npp rm lai fapar temp ssrd estk tbl).grid = lai.grid ∧
    (compute_npp rm lai fapar temp ssrd estk tbl).crs = lai.crs :=
  ⟨hrm _ _, hrm _ _, hrm _ _, hrm _ _, rfl, rfl⟩

/-- Witness for C4: instantiated on concrete rasters with the aligned
reprojection model, whose output grid is the target grid by construction. -/
theorem compute_npp_grid_alignment_witness :
    (alignedReproject (convertedTemp wTemp) wLai).grid = wLai.grid ∧
    (alignedReproject wSsrd wLai).grid = wLai.grid ∧
    (alignedReproject wFapar wLai).grid = wLai.grid ∧
    (alignedReproject wEstk wLai).grid = wLai.grid ∧
    (compute_npp alignedReproject wLai wFapar wTemp wSsrd wEstk wTbl).grid = wLai.grid ∧
    (compute_npp alignedReproject wLai wFapar wTemp wSsrd wEstk wTbl).crs = wLai.crs :=
  compute_npp_grid_alignment alignedReproject wLai wFapar wTemp wSsrd wEstk wTbl
    (fun _ _ => rfl)

/-- C5: the radiation extraction computes successive differences along time,
then per-day sums, then the mean over days, and the clip to the bounding box
only restricts the coordinate labels afterwards, leaving the aggregated
values untouched at every point; the plain extraction computes only the mean
over the time window before the same clip. -/
theorem extraction_pipeline_shapes (ds : NCDataset) (s e : ℕ) (bbox : BBox) (la lo : ℚ) :
    (extract_ssrd_may_process ds s e bbox).val la lo = spec_radiation_aggregate ds s e la lo ∧
    (extract_ssrd_may_process ds s e bbox).lats =
      ds.lats.filter (fun x => decide (bbox.lat_min ≤ x ∧ x ≤ bbox.lat_max)) ∧
    (extract_ssrd_may_process ds s e bbox).lons =
      ds.lons.filter (fun x => decide (bbox.lon_min ≤ x ∧ x ≤ bbox.lon_max)) ∧
    (extract_monthly_mean ds s e bbox).val la lo = spec_window_mean ds s e la lo ∧
    (extract_monthly_mean ds s e bbox).lats =
      ds.lats.filter (fun x => decide (bbox.lat_min ≤ x ∧ x ≤ bbox.lat_max)) ∧
    (extract_monthly_mean ds s e bbox).lons =
      ds.lons.filter (fun x => decide (bbox.lon_min ≤ x ∧ x ≤ bbox.lon_max)) := by
  refine ⟨?_, ?_, ?_, ?_, ?_, ?_⟩
  · show (fun la lo =>
        qmean ((resample1DSum (diffUpper (selTimes ds s e) (fun t => ds.val t la lo))).map
          Prod.snd)) la lo = _
    simp only [spec_radiation_aggregate, diffUpper]
    rw [List.zipWith_comm]
  · simp [extract_ssrd_may_process, clipBBox]
  · simp [extract_ssrd_may_process, clipBBox]
  · rfl
  · simp [extract_monthly_mean, clipBBox]
  · simp [extract_monthly_mean, clipBBox]

theorem isValidAt_mem (r : CRaster) (c : ℚ × ℚ) (h : isValidAt r c = true) : c ∈ r.coords := by
  by_contra hc
  simp [isValidAt, cellValue, hc] at h

theorem cellValue_combine_first (a b : CRaster) (c : ℚ × ℚ) :
    cellValue (combine_first a b) c =
      match cellValue a c with
      | some v => some v
      | none => cellValue b c := by
  by_cases ha : c ∈ a.coords <;> by_cases hb : c ∈ b.coords <;>
      cases hav : a.val c <;> cases hbv : b.val c <;>
    simp [cellValue, combine_first, ha, hb, hav, hbv, List.mem_append, List.mem_filter]

theorem isValidAt_combine_first (a b : CRaster) (c : ℚ × ℚ) :
    isValidAt (combine_first a b) c = (isValidAt a c || isValidAt b c) := by
  rw [isValidAt, cellValue_combine_first]
  cases h : cellValue a c <;> simp [isValidAt, h]

/-- C6: for two tiles whose processed valid regions are disjoint, the merge
over a boundary succeeds and its valid footprint is the union of the two
processed tiles: a cell is valid in the merged raster exactly when it is
valid in at least one of the two clipped tiles. -/
theorem merge_two_tiles_union_footprint (lcr : String → Boundary → String → ℚ → CRaster)
    (t0 t1 : String) (boundary : Boundary) (target_crs : String) (scale_factor : ℚ)
    (out_path : Option String) (c : ℚ × ℚ)
    (hdisj : ∀ p : ℚ × ℚ, ¬(isValidAt (lcr t0 boundary target_crs scale_factor) p = true ∧
        isValidAt (lcr t1 boundary target_crs scale_factor) p = true)) :
    ∃ m w, merge_tiles lcr [t0, t1] boundary target_crs scale_factor out_path =
        Except.ok (m, w) ∧
      (isValidAt m c = true ↔
        isValidAt (lcr t0 boundary target_crs scale_factor) c = true ∨
        isValidAt (lcr t1 boundary target_crs scale_factor) c = true) := by
  refine ⟨_, _, rfl, ?_⟩
  show isValidAt ([lcr t1 boundary target_crs scale_factor].foldl combine_first
      (lcr t0 boundary target_crs scale_factor)) c = true ↔ _
  rw [List.foldl_cons, List.foldl_nil, isValidAt_combine_first]
  simp

def wTileA : CRaster := { coords := [(0, 0)], val := fun _ => some 1 }

def wTileB : CRaster := { coords := [(1, 0)], val := fun _ => some 2 }

def wLcr : String → Boundary → String → ℚ → CRaster := fun p _ _ _ =>
  if p = "tileA" then wTileA else wTileB

def wBoundary : Boundary := { polys := [] }

/-- Witness for C6: two single-cell tiles at distinct cells merge into a
raster valid exactly on the union of their cells. -/
theorem merge_two_tiles_union_footprint_witness :
    ∃ m w, merge_tiles wLcr ["tileA", "tileB"] wBoundary "EPSG:32631" 1 none =
        Except.ok (m, w) ∧
      (isValidAt m (0, 0) = true ↔
        isValidAt (wLcr "tileA" wBoundary "EPSG:32631" 1) (0, 0) = true ∨
        isValidAt (wLcr "tileB" wBoundary "EPSG:32631" 1) (0, 0) = true) := by
  apply merge_two_tiles_union_footprint wLcr "tileA" "tileB" wBoundary "EPSG:32631" 1 none (0, 0)
  intro p hp
  have h0 := isValidAt_mem _ _ hp.1
  have h1 := isValidAt_mem _ _ hp.2
  simp [wLcr, wTileA, wTileB] at h0 h1
  rw [h0] at h1
  simp [Prod.ext_iff] at h1

theorem cellValue_foldl_combine_first (l : List CRaster) (a : CRaster) (c : ℚ × ℚ) :
    cellValue (l.foldl combine_first a) c =
      match cellValue a c with
      | some v => some v
      | none => firstValid l c := by
  induction l generalizing a with
  | nil => cases h : cellValue a c <;> simp [firstValid, h]
  | cons p rest ih =>
    rw [List.foldl_cons, ih, cellValue_combine_first]
    cases h : cellValue a c <;> simp [firstValid, h]

/-- C9: merge_tiles is left-biased: on a list of two or more tiles the merge
succeeds and the merged value at every cell is the value of the earliest
processed tile with valid data there; a later tile contributes only at cells
left invalid by all earlier tiles. -/
theorem merge_tiles_left_bias (lcr : String → Boundary → String → ℚ → CRaster)
    (tile_paths : List String) (boundary : Boundary) (target_crs : String)
    (scale_factor : ℚ) (out_path : Option String) (c : ℚ × ℚ)
    (hlen : 2 ≤ tile_paths.length) :
    ∃ m w, merge_tiles lcr tile_paths boundary target_crs scale_factor out_path =
        Except.ok (m, w) ∧
      cellValue m c =
        firstValid (tile_paths.map (fun p => lcr p boundary target_crs scale_factor)) c := by
  cases tile_paths with
  | nil => simp at hlen
  | cons t0 rest =>
    refine ⟨_, _, rfl, ?_⟩
    show cellValue ((rest.map fun p => lcr p boundary target_crs scale_factor).foldl
        combine_first (lcr t0 boundary target_crs scale_factor)) c = _
    rw [cellValue_foldl_combine_first]
    cases h : cellValue (lcr t0 boundary target_crs scale_factor) c <;>
      simp [firstValid, h]

/-- Witness for C9: the two-tile list of the C6 witness setup, evaluated at
a concrete cell. -/
theorem merge_tiles_left_bias_witness :
    ∃ m w, merge_tiles wLcr ["tileA", "tileB"] wBoundary "EPSG:32631" 1 none =
        Except.ok (m, w) ∧
      cellValue m (0, 0) =
        firstValid (["tileA", "tileB"].map
          (fun p => wLcr p wBoundary "EPSG:32631" 1)) (0, 0) :=
  merge_tiles_left_bias wLcr ["tileA", "tileB"] wBoundary "EPSG:32631" 1 none (0, 0)
    (by decide)

/-- C10: merge_tiles on an empty tile list fails for every boundary, target
CRS, scale factor and out_path choice, the model of the IndexError raised by
indexing the first processed tile; the error branch carries no write, so no
output file is produced even when out_path is provided. -/
theorem merge_tiles_empty_fails (lcr : String → Boundary → String → ℚ → CRaster)
    (boundary : Boundary) (target_crs : String) (scale_factor : ℚ)
    (out_path : Option String) :
    merge_tiles lcr [] boundary target_crs scale_factor out_path =
      Except.error "IndexError: list index out of range" := rfl

/-- C7: every validation function has return type Bool, so no exception can
reach the caller in the embedding, and whenever opening or reading the input
raises (the error case of the open result, covering unreadable and missing
files) the function returns false, as the try/except wrapper around each
whole body does after logging. -/
theorem validation_error_returns_false (e : String) (expected_crs : String)
    (expected_classes : List ℤ) (min_val max_val : Option ℚ) :
    validate_raster_crs (Except.error e) expected_crs = false ∧
    validate_estk_classes (Except.error e) expected_classes = false ∧
    validate_data_range (Except.error e) min_val max_val = false :=
  ⟨rfl, rfl, rfl⟩

theorem error_exists_of_isOk_false {α : Type} (x : Except String α) (h : x.isOk = false) :
    ∃ msg, x = Except.error msg := by
  cases x with
  | error e => exact ⟨e, rfl⟩
  | ok v => simp [Except.isOk, Except.toBool] at h

/-- C8: a missing input file makes each of load_config,
clip_and_reproject_estk and the file-level compute_npp raise (return the
error branch) instead of producing a result; their writes live only in the
ok payload, so nothing is written either. -/
theorem missing_input_file_raises (fs : RasterFS) (rm : Raster → Raster → Raster)
    (clip : Raster → Boundary → Raster) (reproject : Raster → String → Raster)
    (parse : String → List (String × String)) (cfs : String → Option String)
    (config_path estk_path clipped_path reproj_path target_crs : String)
    (boundary : Boundary) (tbl : ConvTable)
    (lai_path fapar_path temp_path ssrd_path estk_npp_path output_path : String) :
    (cfs config_path = none →
      ∃ msg, load_config parse cfs config_path = Except.error msg) ∧
    (fs estk_path = none →
      ∃ msg, clip_and_reproject_estk clip reproject fs estk_path boundary clipped_path
        reproj_path target_crs = Except.error msg) ∧
    ((fs lai_path = none ∨ fs fapar_path = none ∨ fs temp_path = none ∨
        fs ssrd_path = none ∨ fs estk_npp_path = none) →
      ∃ msg, compute_npp_io fs rm lai_path fapar_path temp_path ssrd_path estk_npp_path
        tbl output_path = Except.error msg) := by
  refine ⟨?_, ?_, ?_⟩
  · intro h
    exact ⟨_, by rw [load_config, h]⟩
  · intro h
    exact ⟨_, by rw [clip_and_reproject_estk, h]⟩
  · intro h
    apply error_exists_of_isOk_false
    cases h1 : fs lai_path <;> cases h2 : fs fapar_path <;> cases h3 : fs temp_path <;>
        cases h4 : fs ssrd_path <;> cases h5 : fs estk_npp_path <;>
      simp [compute_npp_io, open_rasterio, h1, h2, h3, h4, h5, Bind.bind, Except.bind,
        Except.isOk, Except.toBool] <;>
      (rw [h1, h2, h3, h4, h5] at h; rcases h with h | h | h | h | h <;> simp at h)

/-- Witness for C8: an empty file system makes all three operations fail. -/
theorem missing_input_file_raises_witness :
    (∃ msg, load_config (fun _ => []) (fun _ => none) "config.yaml" = Except.error msg) ∧
    (∃ msg, clip_and_reproject_estk (fun r _ => r) (fun r _ => r) (fun _ => none) "estk.tif"
        wBoundary "clip.tif" "reproj.tif" "EPSG:32631" = Except.error msg) ∧
    (∃ msg, compute_npp_io (fun _ => none) alignedReproject "lai.tif" "fapar.tif" "temp.tif"
        "ssrd.tif" "estk.tif" wTbl "npp.tif" = Except.error msg) := by
  obtain ⟨h1, h2, h3⟩ := missing_input_file_raises (fun _ => none) alignedReproject
    (fun r _ => r) (fun r _ => r) (fun _ => []) (fun _ => none) "config.yaml" "estk.tif"
    "clip.tif" "reproj.tif" "EPSG:32631" wBoundary wTbl "lai.tif" "fapar.tif" "temp.tif"
    "ssrd.tif" "estk.tif" "npp.tif"
  exact ⟨h1 rfl, h2 rfl, h3 (Or.inl rfl)⟩
